import Mathlib

/-!
Verification development for the module-coupling analyzer of pycodemetrics
(`pycodemetrics/metrics/coupling.py` and
`pycodemetrics/services/analyze_coupling.py`).

The Python code is shallowly embedded: each Python function becomes an
executable Lean definition over the same data, with Python floats modelled
as exact rationals, Python exceptions as `Except`/`Option` values, and the
insertion-ordered dependency dictionary as a list of records.
-/

/-! ## String helpers

Executable models of the Python `str` operations used by the analyzer
(`endswith`, `startswith`, slicing, single-pattern `replace`, `split(".")`
and `".".join`), written by structural recursion on the character list so
that the kernel can evaluate them on concrete inputs. -/

/-- Model of Python `s.endswith(t)`. -/
def strEndsWith (s t : String) : Bool :=
  t.data.isSuffixOf s.data

/-- Model of Python `s.startswith(t)`. -/
def strStartsWith (s t : String) : Bool :=
  t.data.isPrefixOf s.data

/-- Model of Python `s[:-n]`, i.e. dropping the last `n` characters. -/
def strDropRight (s : String) (n : Nat) : String :=
  ⟨s.data.take (s.data.length - n)⟩

/-- Model of Python `s.replace("/", ".")`: a single-character pattern, so it
is a character map. -/
def slashesToDots (s : String) : String :=
  ⟨s.data.map (fun c => if c = '/' then '.' else c)⟩

/-- Character-list worker for Python `s.replace(".py", "")`: removes every
(left-to-right, non-overlapping) occurrence of `.py`. -/
def stripPyList : List Char → List Char
  | '.' :: 'p' :: 'y' :: rest => stripPyList rest
  | c :: rest => c :: stripPyList rest
  | [] => []

/-- Model of Python `s.replace(".py", "")`. -/
def stripPy (s : String) : String :=
  ⟨stripPyList s.data⟩

/-- Character-list worker for Python `s.split(".")`. -/
def splitDotList : List Char → List (List Char)
  | [] => [[]]
  | c :: cs =>
    if c = '.' then [] :: splitDotList cs
    else
      match splitDotList cs with
      | [] => [[c]]
      | g :: gs => (c :: g) :: gs

/-- Model of Python `s.split(".")` (an empty string yields `[""]`, matching
Python). -/
def splitDot (s : String) : List String :=
  (splitDotList s.data).map (fun g => ⟨g⟩)

/-- Model of Python `".".join(parts)`. -/
def joinDot : List String → String
  | [] => ("")
  | [p] => p
  | p :: ps => p ++ (".") ++ joinDot ps

/-! ## Data model (`pycodemetrics/metrics/coupling.py`) -/

/-- `ModuleDependency`: the extracted record for one module, keyed by its
project-relative path in the dependency store. -/
structure ModuleDependency where
  module_path : String
  imported_modules : List String
  internal_imports : List String
  external_imports : List String
  lines_of_code : Nat := 0
  deriving DecidableEq, Repr

/-- `CouplingMetrics`: per-module coupling numbers.  Python floats are
modelled as exact rationals. -/
structure CouplingMetrics where
  module_path : String
  afferent_coupling : Nat
  efferent_coupling : Nat
  instability : ℚ
  abstractness : ℚ := 0
  lines_of_code : Nat := 0
  deriving DecidableEq, Repr

/-- Computed field `CouplingMetrics.distance_from_main_sequence`:
`|A + I - 1|`. -/
def distance_from_main_sequence (m : CouplingMetrics) : ℚ :=
  |m.abstractness + m.instability - 1|

/-- Computed field `CouplingMetrics.category`: the Martin quadrant of the
module, decided by `I` and `A` against `0.5`. -/
def category (m : CouplingMetrics) : String :=
  if m.instability < 1/2 ∧ m.abstractness < 1/2 then ("stable")
  else if 1/2 ≤ m.instability ∧ 1/2 ≤ m.abstractness then ("unstable")
  else if m.instability < 1/2 ∧ 1/2 ≤ m.abstractness then ("painful")
  else ("useless")

/-- `ProjectCouplingMetrics`: project-wide aggregates. -/
structure ProjectCouplingMetrics where
  project_path : String
  module_count : Nat
  total_internal_dependencies : Nat
  average_instability : ℚ
  max_afferent_coupling : Nat
  max_efferent_coupling : Nat
  module_metrics : List CouplingMetrics
  deriving DecidableEq, Repr

/-- Computed field `ProjectCouplingMetrics.dependency_density`:
`total / (n * (n - 1))`, and `0` when `n ≤ 1`. -/
def dependency_density (p : ProjectCouplingMetrics) : ℚ :=
  if p.module_count ≤ 1 then 0
  else (p.total_internal_dependencies : ℚ) /
    ((p.module_count : ℚ) * ((p.module_count : ℚ) - 1))

/-! ## Coupling calculator (`CouplingAnalyzer`) -/

/-- `CouplingAnalyzer._normalize_module_path`: strip a trailing `.py`, then
a trailing `/__init__`, then turn slashes into dots. -/
def normalize_module_path (p : String) : String :=
  let p1 := if strEndsWith p (".py") then strDropRight p 3 else p
  let p2 := if strEndsWith p1 ("/__init__") then strDropRight p1 9 else p1
  slashesToDots p2

/-- `CouplingAnalyzer._is_module_match`: equality, dotted-prefix match in
either direction, or the fallback suffix comparison that drops the leading
path segment of the imported name. -/
def is_module_match (imported_module target_module : String) : Bool :=
  let imported_normalized := normalize_module_path imported_module
  let target_normalized := normalize_module_path target_module
  if imported_normalized == target_normalized then true
  else if strStartsWith target_normalized (imported_normalized ++ (".")) then true
  else if strStartsWith imported_normalized (target_normalized ++ (".")) then true
  else
    let imported_parts := splitDot imported_module
    let target_parts := splitDot (stripPy (slashesToDots target_module))
    if 2 ≤ imported_parts.length ∧ 1 ≤ target_parts.length then
      joinDot (imported_parts.drop 1) == joinDot target_parts
    else false

/-- The body of the reverse scan of `_calculate_afferent_coupling`: a stored
module other than the target contributes (once, via the `break`) when any of
its internal imports matches the target. -/
def contributes_to (target target_normalized : String) (d : ModuleDependency) : Bool :=
  d.module_path != target &&
    d.internal_imports.any
      (fun imported => is_module_match (normalize_module_path imported) target_normalized)

/-- `CouplingAnalyzer._calculate_afferent_coupling`: the number of other
stored modules with at least one internal import matching the target. -/
def calculate_afferent_coupling (dependencies : List ModuleDependency)
    (target_module : String) : Nat :=
  (dependencies.filter
    (contributes_to target_module (normalize_module_path target_module))).length

/-- `CouplingAnalyzer._calculate_instability`: `Ce / (Ca + Ce)`, and `0`
when `Ca + Ce = 0`. -/
def calculate_instability (afferent_coupling efferent_coupling : Nat) : ℚ :=
  if afferent_coupling + efferent_coupling = 0 then 0
  else (efferent_coupling : ℚ) / ((afferent_coupling : ℚ) + (efferent_coupling : ℚ))

/-- One step of `CouplingAnalyzer._calculate_coupling_metrics`: the metric
record of one stored module, computed against the whole store. -/
def calc_coupling_metric (dependencies : List ModuleDependency)
    (dependency : ModuleDependency) : CouplingMetrics :=
  let efferent_coupling := dependency.internal_imports.length
  let afferent_coupling := calculate_afferent_coupling dependencies dependency.module_path
  { module_path := dependency.module_path
    afferent_coupling := afferent_coupling
    efferent_coupling := efferent_coupling
    instability := calculate_instability afferent_coupling efferent_coupling
    abstractness := 0
    lines_of_code := dependency.lines_of_code }

/-- `CouplingAnalyzer._calculate_coupling_metrics`: metric records for every
stored module, in store order. -/
def calculate_coupling_metrics (dependencies : List ModuleDependency) :
    List CouplingMetrics :=
  dependencies.map (calc_coupling_metric dependencies)

/-- The zeroed `ProjectCouplingMetrics` returned for an empty store and by
the top-level exception handler. -/
def emptyProjectMetrics (project_path : String) : ProjectCouplingMetrics :=
  { project_path := project_path
    module_count := 0
    total_internal_dependencies := 0
    average_instability := 0
    max_afferent_coupling := 0
    max_efferent_coupling := 0
    module_metrics := [] }

/-- `CouplingAnalyzer._calculate_project_metrics`: project-wide sums,
average and maxima over the per-module metrics. -/
def calculate_project_metrics (project_path : String)
    (dependencies : List ModuleDependency) : ProjectCouplingMetrics :=
  let module_metrics := calculate_coupling_metrics dependencies
  if module_metrics.isEmpty then emptyProjectMetrics project_path
  else
    { project_path := project_path
      module_count := module_metrics.length
      total_internal_dependencies :=
        (dependencies.map (fun dep => dep.internal_imports.length)).sum
      average_instability :=
        (module_metrics.map (fun m => m.instability)).sum / (module_metrics.length : ℚ)
      max_afferent_coupling :=
        (module_metrics.map (fun m => m.afferent_coupling)).foldl max 0
      max_efferent_coupling :=
        (module_metrics.map (fun m => m.efferent_coupling)).foldl max 0
      module_metrics := module_metrics }

/-! ## Import extractor (`EnhancedImportAnalyzer`)

The Python syntax tree is an external collaborator: its `ImportFrom` node
carries the dotted module name (or none for a bare `from . import x`), the
relative-import level, and the imported aliases.  Per the Python `ast`
documentation, for a relative import the leading dots are NOT part of
`module`: they are counted in `level`, and `module` is `None` for
`from . import x`. -/

/-- Mirror of `ast.ImportFrom` as consumed by `visit_ImportFrom`. -/
structure ImportFromNode where
  module : Option String
  level : Nat
  names : List String
  deriving DecidableEq, Repr

/-- The accumulating lists of `EnhancedImportAnalyzer`. -/
structure ExtractorState where
  imports : List String := []
  internal_imports : List String := []
  external_imports : List String := []
  deriving DecidableEq, Repr

/-- `EnhancedImportAnalyzer._categorize_import`: first match wins — leading
dot, then project-package name or dotted prefix thereof, then a path that
exists under the project root (`existsUnderRoot` abstracts the filesystem
probe), else external. -/
def categorize_import (project_name : String) (existsUnderRoot : String → Bool)
    (import_name : String) (st : ExtractorState) : ExtractorState :=
  if strStartsWith import_name (".") then
    { st with internal_imports := st.internal_imports ++ [import_name] }
  else if strStartsWith import_name (project_name ++ (".")) || import_name == project_name then
    { st with internal_imports := st.internal_imports ++ [import_name] }
  else if existsUnderRoot import_name then
    { st with internal_imports := st.internal_imports ++ [import_name] }
  else
    { st with external_imports := st.external_imports ++ [import_name] }

/-- `EnhancedImportAnalyzer.visit_ImportFrom`: skips the node when `module`
is absent; otherwise records `module` and each `module.alias`, categorizing
by the module part only.  Note that `node.level` is never consulted. -/
def visit_ImportFrom (project_name : String) (existsUnderRoot : String → Bool)
    (node : ImportFromNode) (st : ExtractorState) : ExtractorState :=
  match node.module with
  | none => st
  | some m =>
    let st1 := categorize_import project_name existsUnderRoot m
      { st with imports := st.imports ++ [m] }
    node.names.foldl
      (fun acc al =>
        categorize_import project_name existsUnderRoot m
          { acc with imports := acc.imports ++ [m ++ (".") ++ al] })
      st1

/-! ## Per-file analysis and the dependency store -/

/-- The import lists produced by a successful parse-and-walk of one file;
`none` stands for the `SyntaxError` branch. -/
structure ParsedImports where
  imported_modules : List String
  internal_imports : List String
  external_imports : List String
  deriving DecidableEq, Repr

/-- `CouplingAnalyzer._analyze_module_dependencies`: on a syntax error the
record keeps its path and line count but has empty import lists. -/
def analyze_module_dependencies (module_path : String) (lines_of_code : Nat)
    (parsed : Option ParsedImports) : ModuleDependency :=
  match parsed with
  | some p =>
    { module_path := module_path
      imported_modules := p.imported_modules
      internal_imports := p.internal_imports
      external_imports := p.external_imports
      lines_of_code := lines_of_code }
  | none =>
    { module_path := module_path
      imported_modules := []
      internal_imports := []
      external_imports := []
      lines_of_code := lines_of_code }

/-- Insertion-ordered dictionary update
`self.dependencies[d.module_path] = d`: replace in place when the key is
present, else append. -/
def store_insert (deps : List ModuleDependency) (d : ModuleDependency) :
    List ModuleDependency :=
  if deps.any (fun e => e.module_path == d.module_path) then
    deps.map (fun e => if e.module_path == d.module_path then d else e)
  else deps ++ [d]

/-- One located file as seen by `_collect_all_dependencies`: unreadable
(`UnicodeDecodeError`/`IOError`, skipped), or read with a line count and a
parse outcome. -/
inductive FileReadResult where
  | unreadable
  | readContent (lines_of_code : Nat) (parsed : Option ParsedImports)
  deriving DecidableEq, Repr

/-- `CouplingAnalyzer._collect_all_dependencies` over the located files. -/
def collect_all_dependencies (files : List (String × FileReadResult)) :
    List ModuleDependency :=
  files.foldl
    (fun deps file =>
      match file.2 with
      | .unreadable => deps
      | .readContent loc parsed =>
        store_insert deps (analyze_module_dependencies file.1 loc parsed))
    []

/-- Top-level `analyze_project_coupling`: the pipeline run is modelled as an
`Except` value; the `except Exception` handler turns any error into the
zeroed metrics. -/
def analyze_project_coupling (project_root : String)
    (run : Except String ProjectCouplingMetrics) : ProjectCouplingMetrics :=
  match run with
  | .ok metrics => metrics
  | .error _ => emptyProjectMetrics project_root

/-! ## Classifier and recommender
(`pycodemetrics/services/analyze_coupling.py`) -/

/-- `CouplingAnalysisSettings` with its defaults (`0.8`, `0.2`, `5`,
`200`). -/
structure CouplingAnalysisSettings where
  instability_threshold_high : ℚ := 4/5
  instability_threshold_low : ℚ := 1/5
  coupling_threshold_high : Nat := 5
  lines_threshold_large : Nat := 200
  deriving DecidableEq, Repr

/-- The default settings record. -/
def defaultSettings : CouplingAnalysisSettings := {}

/-- `ModuleRecommendation`. -/
structure ModuleRecommendation where
  module_path : String
  priority : String
  category : String
  recommendations : List String
  rationale : String
  deriving DecidableEq, Repr

/-- The per-module test of `_identify_problematic_modules`: any of high
instability, high afferent or efferent coupling, large file with `Ce > 3`,
or distance from the main sequence above `0.5`. -/
def is_problematic (settings : CouplingAnalysisSettings) (m : CouplingMetrics) : Bool :=
  decide (settings.instability_threshold_high < m.instability) ||
  (decide (settings.coupling_threshold_high < m.afferent_coupling) ||
    decide (settings.coupling_threshold_high < m.efferent_coupling)) ||
  (decide (settings.lines_threshold_large < m.lines_of_code) &&
    decide (3 < m.efferent_coupling)) ||
  decide ((1:ℚ)/2 < distance_from_main_sequence m)

/-- `_identify_problematic_modules`. -/
def identify_problematic_modules (modules : List CouplingMetrics)
    (settings : CouplingAnalysisSettings) : List CouplingMetrics :=
  modules.filter (is_problematic settings)

/-- The per-module test of `_identify_stable_modules`: low instability,
`Ca ≥ 2` and `Ce ≤ 3`, all at once. -/
def is_stable_module (settings : CouplingAnalysisSettings) (m : CouplingMetrics) : Bool :=
  decide (m.instability < settings.instability_threshold_low) &&
  decide (2 ≤ m.afferent_coupling) &&
  decide (m.efferent_coupling ≤ 3)

/-- `_identify_stable_modules`. -/
def identify_stable_modules (modules : List CouplingMetrics)
    (settings : CouplingAnalysisSettings) : List CouplingMetrics :=
  modules.filter (is_stable_module settings)

/-- `_generate_instability_recommendations`: text, priority, category and
rationale for the high-instability branch. -/
def generate_instability_recommendations (m : CouplingMetrics)
    (settings : CouplingAnalysisSettings) : List String × String × String × String :=
  if settings.coupling_threshold_high < m.efferent_coupling then
    (["依存関係の削減を検討してください",
      "Dependency Injection パターンの適用を検討してください",
      "モジュールの分割を検討してください"],
     ("high"), ("coupling"),
     ("出力結合度が高く（") ++ toString m.efferent_coupling ++ ("）、不安定です"))
  else
    (["より多くのモジュールからの利用を促進してください",
      "インターフェースの安定化を検討してください"],
     ("medium"), ("instability"),
     ("不安定度が高い（") ++ toString m.instability ++ ("）ですが、依存関係は適切です"))

/-- `_generate_coupling_recommendations`. -/
def generate_coupling_recommendations (m : CouplingMetrics)
    (_settings : CouplingAnalysisSettings) : List String × String × String × String :=
  (["責任の分離を検討してください",
    "Facade パターンの適用を検討してください",
    "依存関係の見直しを行ってください"],
   (if 8 < m.efferent_coupling then ("high") else ("medium")), ("coupling"),
   ("出力結合度が高すぎます（") ++ toString m.efferent_coupling ++ ("）"))

/-- `_generate_size_recommendations`. -/
def generate_size_recommendations (m : CouplingMetrics)
    (_settings : CouplingAnalysisSettings) : List String × String × String × String :=
  (["ファイルサイズが大きすぎます。分割を検討してください",
    "Single Responsibility Principle の適用を検討してください"],
   ("medium"), ("size"),
   ("ファイルが大きく（") ++ toString m.lines_of_code ++ ("行）、依存関係も多いです"))

/-- `_generate_distance_recommendations`. -/
def generate_distance_recommendations (m : CouplingMetrics)
    (_settings : CouplingAnalysisSettings) : List String × String × String × String :=
  if category m == ("painful") then
    (["抽象度を下げるか、不安定度を上げることを検討してください",
      "具体的な実装への移行を検討してください"],
     ("medium"), ("dependency"),
     ("メインシーケンスから離れすぎています（painful zone）"))
  else
    (["モジュールの必要性を再検討してください",
      "他のモジュールとの統合を検討してください"],
     ("low"), ("dependency"),
     ("メインシーケンスから離れすぎています（useless zone）"))

/-- The per-module body of `_generate_recommendations`: the `if`/`elif`
cascade; `none` when no rule matches (the module adds no entry). -/
def recommendation_for (settings : CouplingAnalysisSettings)
    (m : CouplingMetrics) : Option ModuleRecommendation :=
  let picked : Option (List String × String × String × String) :=
    if settings.instability_threshold_high < m.instability then
      some (generate_instability_recommendations m settings)
    else if settings.coupling_threshold_high < m.efferent_coupling then
      some (generate_coupling_recommendations m settings)
    else if settings.lines_threshold_large < m.lines_of_code ∧ 3 < m.efferent_coupling then
      some (generate_size_recommendations m settings)
    else if (1:ℚ)/2 < distance_from_main_sequence m ∧
        category m ∈ ([("painful"), ("useless")] : List String) then
      some (generate_distance_recommendations m settings)
    else none
  picked.map (fun r =>
    { module_path := m.module_path
      priority := r.2.1
      category := r.2.2.1
      recommendations := r.1
      rationale := r.2.2.2 })

/-- The sort key `priority_order.get(x.priority, 3)`. -/
def priority_order (p : String) : Nat :=
  if p == ("high") then 0 else if p == ("medium") then 1
  else if p == ("low") then 2 else 3

/-- Python's stable `list.sort` under the four-valued `priority_order` key,
written as the equivalent bucket concatenation. -/
def sort_by_priority (recs : List ModuleRecommendation) : List ModuleRecommendation :=
  (recs.filter (fun r => priority_order r.priority == 0)) ++
  (recs.filter (fun r => priority_order r.priority == 1)) ++
  (recs.filter (fun r => priority_order r.priority == 2)) ++
  (recs.filter (fun r => priority_order r.priority == 3))

/-- `_generate_recommendations`: at most one entry per module, in module
order, then the stable priority sort. -/
def generate_recommendations (modules : List CouplingMetrics)
    (settings : CouplingAnalysisSettings) : List ModuleRecommendation :=
  sort_by_priority (modules.filterMap (recommendation_for settings))

/-! ## A definition written from the spec, for the refinement claim about
recommendation precedence -/

/-- Modelled from the spec (§4.5 recommendation precedence): the priority
and category the spec assigns to a module, first match wins, `none` when no
rule applies.  This follows the spec text, to be compared with
`recommendation_for`. -/
def specRecommendationPriorityCategory (settings : CouplingAnalysisSettings)
    (m : CouplingMetrics) : Option (String × String) :=
  if settings.instability_threshold_high < m.instability then
    some (if settings.coupling_threshold_high < m.efferent_coupling then
      (("high"), ("coupling")) else (("medium"), ("instability")))
  else if settings.coupling_threshold_high < m.efferent_coupling then
    some ((if 8 < m.efferent_coupling then ("high") else ("medium")), ("coupling"))
  else if settings.lines_threshold_large < m.lines_of_code ∧ 3 < m.efferent_coupling then
    some ((("medium")), ("size"))
  else if (1:ℚ)/2 < distance_from_main_sequence m ∧
      (category m = ("painful") ∨ category m = ("useless")) then
    some ((if category m = ("painful") then ("medium") else ("low")), ("dependency"))
  else none

/-! ## Concrete stores used by witnesses and counterexamples -/

/-- An isolated module: no imports at all. -/
def isoDep : ModuleDependency :=
  { module_path := ("iso.py"), imported_modules := [], internal_imports := [],
    external_imports := [], lines_of_code := 10 }

/-- A module importing only `b`. -/
def waDep : ModuleDependency :=
  { module_path := ("a.py"), imported_modules := [("b")], internal_imports := [("b")],
    external_imports := [], lines_of_code := 5 }

/-- A module with no internal imports. -/
def wbDep : ModuleDependency :=
  { module_path := ("b.py"), imported_modules := [], internal_imports := [],
    external_imports := [], lines_of_code := 5 }

/-- A hub module: imports `u`, and is imported by six others below. -/
def hubDep : ModuleDependency :=
  { module_path := ("t.py"), imported_modules := [("u")], internal_imports := [("u")],
    external_imports := [], lines_of_code := 50 }

/-- The module the hub imports. -/
def huDep : ModuleDependency :=
  { module_path := ("u.py"), imported_modules := [], internal_imports := [],
    external_imports := [], lines_of_code := 10 }

/-- The `i`-th client of the hub: imports `t`. -/
def clientDep (i : Nat) : ModuleDependency :=
  { module_path := ("m") ++ toString i ++ (".py"), imported_modules := [("t")],
    internal_imports := [("t")], external_imports := [], lines_of_code := 10 }

/-- A store in which `t.py` has `Ca = 6` and `Ce = 1`. -/
def hubStore : List ModuleDependency :=
  [hubDep, huDep, clientDep 1, clientDep 2, clientDep 3,
   clientDep 4, clientDep 5, clientDep 6]

/-- A module of project `p` importing three internal names that are not
stored modules (`import p.x` etc., internal by the root-package rule). -/
def fanDep : ModuleDependency :=
  { module_path := ("a.py"), imported_modules := [("p.x"), ("p.y"), ("p.z")],
    internal_imports := [("p.x"), ("p.y"), ("p.z")], external_imports := [],
    lines_of_code := 3 }

/-- A two-module store whose total internal dependencies (3) exceed
`n·(n−1) = 2`. -/
def fanStore : List ModuleDependency :=
  [fanDep, { module_path := ("b.py"), imported_modules := [], internal_imports := [],
             external_imports := [], lines_of_code := 1 }]

/-- Scenario C of the spec: `Ca = 1`, `Ce = 9`, instability as the
calculator produces it. -/
def scenarioC : CouplingMetrics :=
  { module_path := ("t.py"), afferent_coupling := 1, efferent_coupling := 9,
    instability := calculate_instability 1 9, abstractness := 0, lines_of_code := 100 }

/-- `ast.ImportFrom` node for the source text `from .helpers import util`:
the parser reports `module = "helpers"`, `level = 1`. -/
def relFromNode : ImportFromNode :=
  { module := some ("helpers"), level := 1, names := [("util")] }

/-- `ast.ImportFrom` node for the source text `from . import x`: the parser
reports `module = None`, `level = 1`. -/
def bareRelNode : ImportFromNode :=
  { module := none, level := 1, names := [("x")] }

/-! ## Supporting lemmas -/

/-- Characterization of `calculate_instability`: bounds, the quotient
formula, and the zero convention. -/
theorem calculate_instability_spec (ca ce : Nat) :
    0 ≤ calculate_instability ca ce ∧ calculate_instability ca ce ≤ 1 ∧
    (0 < ca + ce →
      calculate_instability ca ce = (ce : ℚ) / ((ca : ℚ) + (ce : ℚ))) ∧
    (ca + ce = 0 → calculate_instability ca ce = 0) := by
  unfold calculate_instability
  by_cases h : ca + ce = 0
  · simp [h]
  · have hpos : (0 : ℚ) < (ca : ℚ) + (ce : ℚ) := by
      have : 0 < ca + ce := Nat.pos_of_ne_zero h
      exact_mod_cast this
    refine ⟨?_, ?_, ?_, ?_⟩
    · rw [if_neg h]
      positivity
    · rw [if_neg h]
      rw [div_le_one hpos]
      have : ce ≤ ca + ce := Nat.le_add_left ce ca
      exact_mod_cast this
    · intro _
      rw [if_neg h]
    · intro hz
      exact absurd hz h

/-- The `module_count` of the aggregated result is always the store size,
in both branches of `_calculate_project_metrics`. -/
theorem module_count_eq_length (root : String) (deps : List ModuleDependency) :
    (calculate_project_metrics root deps).module_count = deps.length := by
  rcases deps with _ | ⟨d, ds⟩ <;>
    simp [calculate_project_metrics, calculate_coupling_metrics, emptyProjectMetrics]

/-- A freshly inserted record is a member of the updated store. -/
theorem mem_store_insert_self (deps : List ModuleDependency) (d : ModuleDependency) :
    d ∈ store_insert deps d := by
  unfold store_insert
  split
  · next h =>
    rw [List.any_eq_true] at h
    obtain ⟨e, he, heq⟩ := h
    refine List.mem_map.mpr ⟨e, he, ?_⟩
    rw [if_pos heq]
  · exact List.mem_append_right _ (List.mem_singleton.mpr rfl)

/-! ## Claims -/

/-- Claim C8: for every module of the store the computed instability
satisfies `0 ≤ I ≤ 1`, equals `Ce/(Ca+Ce)` when `Ca+Ce > 0`, and is `0`
when `Ca+Ce = 0`. -/
theorem instability_bounds (deps : List ModuleDependency) (d : ModuleDependency) :
    0 ≤ (calc_coupling_metric deps d).instability ∧
    (calc_coupling_metric deps d).instability ≤ 1 ∧
    (0 < (calc_coupling_metric deps d).afferent_coupling +
        (calc_coupling_metric deps d).efferent_coupling →
      (calc_coupling_metric deps d).instability =
        ((calc_coupling_metric deps d).efferent_coupling : ℚ) /
          (((calc_coupling_metric deps d).afferent_coupling : ℚ) +
            ((calc_coupling_metric deps d).efferent_coupling : ℚ))) ∧
    ((calc_coupling_metric deps d).afferent_coupling +
        (calc_coupling_metric deps d).efferent_coupling = 0 →
      (calc_coupling_metric deps d).instability = 0) := by
  have h := calculate_instability_spec
    (calculate_afferent_coupling deps d.module_path) d.internal_imports.length
  simpa [calc_coupling_metric] using h

/-- Witness for C8 at two concrete inputs: the isolated store discharges the
`Ca+Ce = 0` hypothesis, the two-module store the `0 < Ca+Ce` one. -/
theorem instability_bounds_witness :
    (calc_coupling_metric [isoDep] isoDep).instability = 0 ∧
    (calc_coupling_metric [waDep, wbDep] waDep).instability =
      ((calc_coupling_metric [waDep, wbDep] waDep).efferent_coupling : ℚ) /
        (((calc_coupling_metric [waDep, wbDep] waDep).afferent_coupling : ℚ) +
          ((calc_coupling_metric [waDep, wbDep] waDep).efferent_coupling : ℚ)) :=
  ⟨(instability_bounds [isoDep] isoDep).2.2.2 (by decide),
   (instability_bounds [waDep, wbDep] waDep).2.2.1 (by decide)⟩

/-- Claim C5: whatever exception the pipeline raises, the top-level
`analyze_project_coupling` swallows it and returns the zeroed project
metrics: `module_count = 0` and zero totals, averages and maxima. -/
theorem analysis_failure_zeroed (project_root err : String) :
    analyze_project_coupling project_root (.error err) =
      emptyProjectMetrics project_root ∧
    (analyze_project_coupling project_root (.error err)).module_count = 0 ∧
    (analyze_project_coupling project_root (.error err)).total_internal_dependencies = 0 ∧
    (analyze_project_coupling project_root (.error err)).average_instability = 0 ∧
    (analyze_project_coupling project_root (.error err)).max_afferent_coupling = 0 ∧
    (analyze_project_coupling project_root (.error err)).max_efferent_coupling = 0 ∧
    (analyze_project_coupling project_root (.error err)).module_metrics = [] :=
  ⟨rfl, rfl, rfl, rfl, rfl, rfl, rfl⟩

/-- Claim C7: a file whose content fails to parse still yields a record —
with empty import lists but the given line count — that is stored, counted
in `module_count`, and contributes `Ce = 0`. -/
theorem syntax_error_recovery (p : String) (loc : Nat)
    (deps : List ModuleDependency) (root : String) :
    (analyze_module_dependencies p loc none).imported_modules = [] ∧
    (analyze_module_dependencies p loc none).internal_imports = [] ∧
    (analyze_module_dependencies p loc none).external_imports = [] ∧
    (analyze_module_dependencies p loc none).lines_of_code = loc ∧
    analyze_module_dependencies p loc none ∈
      store_insert deps (analyze_module_dependencies p loc none) ∧
    (calc_coupling_metric (store_insert deps (analyze_module_dependencies p loc none))
        (analyze_module_dependencies p loc none)).efferent_coupling = 0 ∧
    (calculate_project_metrics root
        (store_insert deps (analyze_module_dependencies p loc none))).module_count =
      (store_insert deps (analyze_module_dependencies p loc none)).length :=
  ⟨rfl, rfl, rfl, rfl, mem_store_insert_self _ _, rfl, module_count_eq_length _ _⟩

/-- Claim C10: when the target is stored, its afferent coupling is at most
the store size minus one — the scan skips the target and counts every other
module at most once. -/
theorem afferent_coupling_le_store_size_sub_one (deps : List ModuleDependency)
    (target : String) (h : ∃ d ∈ deps, d.module_path = target) :
    calculate_afferent_coupling deps target ≤ deps.length - 1 := by
  obtain ⟨d, hd, hpath⟩ := h
  have hfalse : contributes_to target (normalize_module_path target) d = false := by
    simp [contributes_to, hpath]
  have hlt :
      (deps.filter (contributes_to target (normalize_module_path target))).length <
        deps.length :=
    List.length_filter_lt_length_iff_exists.mpr ⟨d, hd, by simp [hfalse]⟩
  unfold calculate_afferent_coupling
  omega

/-- Witness for C10: the two-module store, targeting the stored `a.py`. -/
theorem afferent_coupling_le_store_size_sub_one_witness :
    calculate_afferent_coupling [waDep, wbDep] ("a.py") ≤ 1 := by
  simpa using afferent_coupling_le_store_size_sub_one [waDep, wbDep] ("a.py")
    ⟨waDep, by simp, rfl⟩

/-- Claim C1 (amended): an isolated module — no internal imports, no
dependents — gets `I = 0` and category `"stable"`, and is not in the
stable-module set (`Ca < 2`); but, contrary to the original claim, it IS in
the problematic set, because its distance from the main sequence is
`|0 + 0 - 1| = 1 > 0.5`. -/
theorem isolated_module_classification (deps : List ModuleDependency)
    (d : ModuleDependency)
    (h_imports : d.internal_imports = [])
    (h_ca : calculate_afferent_coupling deps d.module_path = 0) :
    (calc_coupling_metric deps d).instability = 0 ∧
    category (calc_coupling_metric deps d) = ("stable") ∧
    is_stable_module defaultSettings (calc_coupling_metric deps d) = false ∧
    is_problematic defaultSettings (calc_coupling_metric deps d) = true := by
  have hm : calc_coupling_metric deps d =
      { module_path := d.module_path, afferent_coupling := 0, efferent_coupling := 0,
        instability := 0, abstractness := 0, lines_of_code := d.lines_of_code } := by
    simp [calc_coupling_metric, h_imports, h_ca, calculate_instability]
  rw [hm]
  refine ⟨rfl, ?_, ?_, ?_⟩
  · norm_num [category]
  · simp [is_stable_module, defaultSettings]
  · simp [is_problematic, distance_from_main_sequence, defaultSettings]
    norm_num

/-- Witness for C1 (amended) at the one-module isolated store. -/
theorem isolated_module_classification_witness :
    (calc_coupling_metric [isoDep] isoDep).instability = 0 ∧
    category (calc_coupling_metric [isoDep] isoDep) = ("stable") ∧
    is_stable_module defaultSettings (calc_coupling_metric [isoDep] isoDep) = false ∧
    is_problematic defaultSettings (calc_coupling_metric [isoDep] isoDep) = true :=
  isolated_module_classification [isoDep] isoDep rfl (by decide)

/-- Counterexample to C1 as stated: the isolated module of the one-module
store is a member of the problematic-module set. -/
theorem isolated_module_problematic_counterexample :
    calc_coupling_metric [isoDep] isoDep ∈
      identify_problematic_modules (calculate_coupling_metrics [isoDep]) defaultSettings := by
  have hm : calc_coupling_metric [isoDep] isoDep =
      { module_path := ("iso.py"), afferent_coupling := 0, efferent_coupling := 0,
        instability := 0, abstractness := 0, lines_of_code := 10 } := by
    simp [calc_coupling_metric, isoDep, calculate_instability]
    decide
  rw [identify_problematic_modules, List.mem_filter]
  refine ⟨List.mem_map_of_mem _ (by simp), ?_⟩
  rw [hm]
  simp [is_problematic, distance_from_main_sequence, defaultSettings]
  norm_num

/-- Claim C2 (amended): the problematic and stable sets are NOT disjoint.
With the analyzer's fixed abstractness `0` and the default thresholds,
every stable-set member is also problematic: `I < 0.2` forces
`distance = |I - 1| = 1 - I > 0.5`. -/
theorem stable_set_member_is_problematic (m : CouplingMetrics)
    (habs : m.abstractness = 0)
    (hstable : is_stable_module defaultSettings m = true) :
    is_problematic defaultSettings m = true := by
  simp [is_stable_module, defaultSettings] at hstable
  have hI : m.instability < 1/5 := by
    have h := hstable.1.1
    norm_num at h ⊢
    linarith
  simp [is_problematic, distance_from_main_sequence, habs, defaultSettings]
  refine Or.inr ?_
  have hneg : m.instability - 1 < 0 := by linarith
  rw [abs_of_neg hneg]
  linarith

/-- Witness for C2 (amended) at the hub metric `Ca = 6`, `Ce = 1`,
`I = 1/7`. -/
theorem stable_set_member_is_problematic_witness :
    is_problematic defaultSettings
      { module_path := ("t.py"), afferent_coupling := 6, efferent_coupling := 1,
        instability := 1/7, abstractness := 0, lines_of_code := 50 } = true :=
  stable_set_member_is_problematic _ rfl
    (by norm_num [is_stable_module, defaultSettings])

/-- Counterexample to C2 as stated: in the hub store, `t.py` (`Ca = 6`,
`Ce = 1`, `I = 1/7`) is a member of both the problematic set (`Ca > 5`) and
the stable set (`I < 0.2`, `Ca ≥ 2`, `Ce ≤ 3`). -/
theorem problematic_and_stable_overlap_counterexample :
    calc_coupling_metric hubStore hubDep ∈
      identify_problematic_modules (calculate_coupling_metrics hubStore) defaultSettings ∧
    calc_coupling_metric hubStore hubDep ∈
      identify_stable_modules (calculate_coupling_metrics hubStore) defaultSettings := by
  have hca : calculate_afferent_coupling hubStore ("t.py") = 6 := by decide
  have hm : calc_coupling_metric hubStore hubDep =
      { module_path := ("t.py"), afferent_coupling := 6, efferent_coupling := 1,
        instability := 1/7, abstractness := 0, lines_of_code := 50 } := by
    simp [calc_coupling_metric, hubDep, hca, calculate_instability]
    norm_num
  have hmem : calc_coupling_metric hubStore hubDep ∈ calculate_coupling_metrics hubStore :=
    List.mem_map_of_mem _ (by simp [hubStore])
  constructor
  · rw [identify_problematic_modules, List.mem_filter]
    refine ⟨hmem, ?_⟩
    rw [hm]
    norm_num [is_problematic, distance_from_main_sequence, defaultSettings]
  · rw [identify_stable_modules, List.mem_filter]
    refine ⟨hmem, ?_⟩
    rw [hm]
    norm_num [is_stable_module, defaultSettings]

/-- Claim C3 (amended): the density is `0` when `module_count ≤ 1` and
equals `total/(n·(n−1))`, a nonnegative value, when `module_count > 1`; it
is NOT bounded above by `1` (see the counterexample). -/
theorem dependency_density_spec (path : String) (deps : List ModuleDependency) :
    0 ≤ dependency_density (calculate_project_metrics path deps) ∧
    ((calculate_project_metrics path deps).module_count ≤ 1 →
      dependency_density (calculate_project_metrics path deps) = 0) ∧
    (1 < (calculate_project_metrics path deps).module_count →
      dependency_density (calculate_project_metrics path deps) =
        ((calculate_project_metrics path deps).total_internal_dependencies : ℚ) /
          (((calculate_project_metrics path deps).module_count : ℚ) *
            (((calculate_project_metrics path deps).module_count : ℚ) - 1))) := by
  generalize calculate_project_metrics path deps = p
  unfold dependency_density
  by_cases h : p.module_count ≤ 1
  · simp [h]
  · rw [if_neg h]
    push_neg at h
    have h2 : (2:ℚ) ≤ (p.module_count : ℚ) := by exact_mod_cast h
    have hpos : (0:ℚ) < (p.module_count : ℚ) * ((p.module_count : ℚ) - 1) := by nlinarith
    exact ⟨div_nonneg (by positivity) hpos.le, fun hle => absurd hle (by omega),
      fun _ => rfl⟩

/-- Witness for C3 (amended): the one-module store discharges the
`module_count ≤ 1` hypothesis, the two-module fan store the
`module_count > 1` one. -/
theorem dependency_density_spec_witness :
    dependency_density (calculate_project_metrics ("/proj") [isoDep]) = 0 ∧
    dependency_density (calculate_project_metrics ("/proj") fanStore) =
      ((calculate_project_metrics ("/proj") fanStore).total_internal_dependencies : ℚ) /
        (((calculate_project_metrics ("/proj") fanStore).module_count : ℚ) *
          (((calculate_project_metrics ("/proj") fanStore).module_count : ℚ) - 1)) :=
  ⟨(dependency_density_spec ("/proj") [isoDep]).2.1 (by decide),
   (dependency_density_spec ("/proj") fanStore).2.2 (by decide)⟩

/-- Counterexample to C3 as stated: the fan store has `module_count = 2`
but three internal dependencies, so its density is `3/2 > 1`; the last
conjunct checks that such internal imports do arise from the classifier
(root-package rule on project `p`). -/
theorem dependency_density_above_one_counterexample :
    (calculate_project_metrics ("/proj") fanStore).module_count = 2 ∧
    dependency_density (calculate_project_metrics ("/proj") fanStore) = 3/2 ∧
    ¬ dependency_density (calculate_project_metrics ("/proj") fanStore) ≤ 1 ∧
    (categorize_import ("p") (fun _ => false) ("p.x") {}).internal_imports = [("p.x")] := by
  have h1 : (calculate_project_metrics ("/proj") fanStore).module_count = 2 := by decide
  have h2 : (calculate_project_metrics ("/proj") fanStore).total_internal_dependencies = 3 := by
    decide
  have h3 : dependency_density (calculate_project_metrics ("/proj") fanStore) = 3/2 := by
    simp [dependency_density, h1, h2]
    norm_num
  exact ⟨h1, h3, by rw [h3]; norm_num, by decide⟩

/-- Claim C4 evidence: the extractor never sees the leading dot of
relative-import syntax.  For `from .helpers import util` the parser reports
`module = "helpers"`, `level = 1`; the visitor ignores `level` and
classifies `"helpers"` as external (no top-level `helpers` exists).  For
`from . import x` (`module = None`) nothing is recorded at all.  The
leading-dot rule itself is first, but unreachable: it fires only when handed
a name that begins with a dot. -/
theorem relative_import_misclassified :
    (visit_ImportFrom ("proj") (fun _ => false) relFromNode {}).internal_imports = [] ∧
    (visit_ImportFrom ("proj") (fun _ => false) relFromNode {}).external_imports =
      [("helpers"), ("helpers")] ∧
    visit_ImportFrom ("proj") (fun _ => false) bareRelNode {} = {} ∧
    (categorize_import ("proj") (fun _ => false) (".helpers") {}).internal_imports =
      [(".helpers")] := by
  refine ⟨?_, ?_, ?_, ?_⟩ <;> decide

/-- Claim C6: per module at most one recommendation, chosen first-match over
the four rules; the code's priority/category agree with the spec's
precedence table everywhere, and in Scenario C (`Ca = 1`, `Ce = 9`, default
thresholds) the result is priority `"high"`, category `"coupling"`. -/
theorem recommendation_precedence (settings : CouplingAnalysisSettings)
    (m : CouplingMetrics) :
    ((recommendation_for settings m).map (fun r => (r.priority, r.category))) =
      specRecommendationPriorityCategory settings m ∧
    ((recommendation_for defaultSettings scenarioC).map
        (fun r => (r.priority, r.category))) = some (("high"), ("coupling")) := by
  constructor
  · unfold recommendation_for specRecommendationPriorityCategory
      generate_instability_recommendations generate_coupling_recommendations
      generate_size_recommendations generate_distance_recommendations
    split_ifs <;> simp_all
    all_goals linarith
  · have hI : calculate_instability 1 9 = 9/10 := by norm_num [calculate_instability]
    norm_num [recommendation_for, scenarioC, hI,
      generate_instability_recommendations, defaultSettings]

/-! ## Order-independence lemmas -/

/-- The afferent scan is a filter count, so it is invariant under
permutations of the store. -/
theorem afferent_coupling_perm {deps deps' : List ModuleDependency}
    (h : deps.Perm deps') (t : String) :
    calculate_afferent_coupling deps t = calculate_afferent_coupling deps' t :=
  (h.filter _).length_eq

/-- A module's metric record does not depend on the order of the store. -/
theorem calc_coupling_metric_perm {deps deps' : List ModuleDependency}
    (h : deps.Perm deps') (d : ModuleDependency) :
    calc_coupling_metric deps d = calc_coupling_metric deps' d := by
  simp only [calc_coupling_metric, afferent_coupling_perm h]

/-- Permuting the store permutes the metric list, with identical entries. -/
theorem calculate_coupling_metrics_perm {deps deps' : List ModuleDependency}
    (h : deps.Perm deps') :
    (calculate_coupling_metrics deps).Perm (calculate_coupling_metrics deps') := by
  unfold calculate_coupling_metrics
  have heq : deps'.map (calc_coupling_metric deps') =
      deps'.map (calc_coupling_metric deps) :=
    List.map_congr_left (fun d _ => (calc_coupling_metric_perm h d).symm)
  rw [heq]
  exact h.map _

/-- Field characterizations of `_calculate_project_metrics` that hold in
both the empty and the nonempty branch. -/
theorem project_metrics_fields (root : String) (deps : List ModuleDependency) :
    (calculate_project_metrics root deps).total_internal_dependencies =
      (deps.map (fun dep => dep.internal_imports.length)).sum ∧
    (calculate_project_metrics root deps).average_instability =
      ((calculate_coupling_metrics deps).map (fun m => m.instability)).sum /
        ((calculate_coupling_metrics deps).length : ℚ) ∧
    (calculate_project_metrics root deps).max_afferent_coupling =
      ((calculate_coupling_metrics deps).map (fun m => m.afferent_coupling)).foldl max 0 ∧
    (calculate_project_metrics root deps).max_efferent_coupling =
      ((calculate_coupling_metrics deps).map (fun m => m.efferent_coupling)).foldl max 0 ∧
    (calculate_project_metrics root deps).module_metrics = calculate_coupling_metrics deps := by
  rcases deps with _ | ⟨d, ds⟩ <;>
    simp [calculate_project_metrics, calculate_coupling_metrics, emptyProjectMetrics]

/-- `dependency_density` depends only on the count and the total. -/
theorem dependency_density_congr {p q : ProjectCouplingMetrics}
    (h1 : p.module_count = q.module_count)
    (h2 : p.total_internal_dependencies = q.total_internal_dependencies) :
    dependency_density p = dependency_density q := by
  unfold dependency_density
  rw [h1, h2]

/-- A fold of `max` over a list of naturals is permutation-invariant. -/
theorem foldl_max_perm {l l' : List Nat} (h : l.Perm l') :
    l.foldl max 0 = l'.foldl max 0 := by
  haveI : RightCommutative (fun (b a : Nat) => max b a) := by
    constructor
    intro b a c
    omega
  exact h.foldl_eq 0

/-- Claim C9: the analysis is a pure function of the store, and permuting
the store (its enumeration/insertion order) changes no per-module `Ca`,
`Ce` or `I`, no scalar project metric, and only permutes the module and
recommendation lists. -/
theorem analysis_order_independent (path : String)
    (deps deps' : List ModuleDependency) (h : deps.Perm deps') :
    (∀ d, calc_coupling_metric deps d = calc_coupling_metric deps' d) ∧
    (calculate_project_metrics path deps).module_count =
      (calculate_project_metrics path deps').module_count ∧
    (calculate_project_metrics path deps).total_internal_dependencies =
      (calculate_project_metrics path deps').total_internal_dependencies ∧
    (calculate_project_metrics path deps).average_instability =
      (calculate_project_metrics path deps').average_instability ∧
    (calculate_project_metrics path deps).max_afferent_coupling =
      (calculate_project_metrics path deps').max_afferent_coupling ∧
    (calculate_project_metrics path deps).max_efferent_coupling =
      (calculate_project_metrics path deps').max_efferent_coupling ∧
    dependency_density (calculate_project_metrics path deps) =
      dependency_density (calculate_project_metrics path deps') ∧
    (calculate_project_metrics path deps).module_metrics.Perm
      (calculate_project_metrics path deps').module_metrics ∧
    (generate_recommendations (calculate_coupling_metrics deps) defaultSettings).Perm
      (generate_recommendations (calculate_coupling_metrics deps') defaultSettings) := by
  have hmp := calculate_coupling_metrics_perm h
  have hf := project_metrics_fields path deps
  have hf' := project_metrics_fields path deps'
  have hcount : (calculate_project_metrics path deps).module_count =
      (calculate_project_metrics path deps').module_count := by
    rw [module_count_eq_length, module_count_eq_length, h.length_eq]
  have htot : (calculate_project_metrics path deps).total_internal_dependencies =
      (calculate_project_metrics path deps').total_internal_dependencies := by
    rw [hf.1, hf'.1, (h.map (fun dep => dep.internal_imports.length)).sum_eq]
  refine ⟨calc_coupling_metric_perm h, hcount, htot, ?_, ?_, ?_, ?_, ?_, ?_⟩
  · rw [hf.2.1, hf'.2.1, (hmp.map (fun m => m.instability)).sum_eq, hmp.length_eq]
  · rw [hf.2.2.1, hf'.2.2.1]
    exact foldl_max_perm (hmp.map (fun m => m.afferent_coupling))
  · rw [hf.2.2.2.1, hf'.2.2.2.1]
    exact foldl_max_perm (hmp.map (fun m => m.efferent_coupling))
  · exact dependency_density_congr hcount htot
  · rw [hf.2.2.2.2, hf'.2.2.2.2]
    exact hmp
  · unfold generate_recommendations sort_by_priority
    have hfm := hmp.filterMap (recommendation_for defaultSettings)
    exact (((hfm.filter _).append (hfm.filter _)).append (hfm.filter _)).append
      (hfm.filter _)

/-- Witness for C9: swapping a two-module store leaves the first module's
metric record unchanged. -/
theorem analysis_order_independent_witness :
    calc_coupling_metric [waDep, wbDep] waDep =
      calc_coupling_metric [wbDep, waDep] waDep :=
  (analysis_order_independent ("/proj") [waDep, wbDep] [wbDep, waDep]
    (List.Perm.swap wbDep waDep [])).1 waDep
